import Mathlib

/-
Verification development for the dataframe-entity layer
(src/structures/dataframe_entities.py).

The embedding models the Python module shallowly:
* Python scalar values become the inductive type `Value`; the declared types
  a `PyField` can carry become `PyType`.
* Raised exceptions become `Except PyError`.
* Instance attribute stores and keyword-argument dicts become association
  lists `List (String × Value)`.
* User-supplied value parsers are Lean functions `Value → Value`; a
  `default_value_generator` is recorded extensionally by the value it
  returns (the source only ever invokes a generator as
  `field.default_value_generator(field)`, i.e. on its own field).
* Python floats are modelled as exact rationals plus a distinct `nan`
  scalar; the `float(...)` literal parser covers finite decimal literals
  and the textual NaN spellings.
-/

/-- Python scalar values flowing through record construction.  Containers
(tuple/list/dict/DataFrame/Series) and entity/collection instances, which
`_is_null` (lines 99-106) treats specially, do not occur as field inputs in
any claim and are outside this scalar domain. -/
inductive Value where
  | none
  | int (n : Int)
  | float (q : Rat)
  | nan
  | str (s : String)
  deriving DecidableEq, Repr

/-- Declared attribute types that fields carry (`field.type`).  `str` stands
for the Python 2 pair `(str, unicode)` used at line 60. -/
inductive PyType where
  | int
  | float
  | str
  deriving DecidableEq, Repr

/-- Python exceptions raised by the modelled code paths. -/
inductive PyError where
  | attributeError (msg : String)
  | typeError (msg : String)
  | valueError (msg : String)
  deriving DecidableEq, Repr

/-- pd.isnull on a scalar: only the absence sentinel and NaN are missing. -/
def pdIsNull : Value → Bool
  | Value.none => true
  | Value.nan => true
  | _ => false

/-- _is_null (lines 99-106) on the scalar domain.  `empty_as_null` is false
at every call site reached from record construction, and the container /
entity / collection branches (lines 102-105) concern values outside the
scalar domain, so the function reduces to the None check plus pd.isnull. -/
def isNull (value : Value) : Bool :=
  pdIsNull value

/-- isinstance(value, field.type).  NaN is a float instance in Python. -/
def isInstance (value : Value) (t : PyType) : Bool :=
  match value, t with
  | Value.int _, PyType.int => true
  | Value.float _, PyType.float => true
  | Value.nan, PyType.float => true
  | Value.str _, PyType.str => true
  | _, _ => false

/-- issubclass(t, (str, unicode)). -/
def isTextType : PyType → Bool
  | PyType.str => true
  | _ => false

/-- Numeric value of a digit string. -/
def digitsVal (cs : List Char) : Nat :=
  cs.foldl (fun n c => 10 * n + (c.toNat - Char.toNat '0')) 0

/-- int(s) on a string: optional sign followed by decimal digits. -/
def parseIntLit (s : String) : Option Int :=
  match s.data with
  | [] => Option.none
  | '-' :: rest =>
      if rest ≠ [] ∧ rest.all Char.isDigit then Option.some (-(digitsVal rest : Int))
      else Option.none
  | '+' :: rest =>
      if rest ≠ [] ∧ rest.all Char.isDigit then Option.some (digitsVal rest : Int)
      else Option.none
  | cs =>
      if cs.all Char.isDigit then Option.some (digitsVal cs : Int)
      else Option.none

/-- Fractional part of a decimal literal. -/
def fracVal (cs : List Char) : Rat :=
  (digitsVal cs : Rat) / ((10 : Rat) ^ cs.length)

/-- Unsigned finite decimal literal: digits, optionally followed by a point
and more digits. -/
def parseDecimalLit (cs : List Char) : Option Rat :=
  let ip := cs.takeWhile Char.isDigit
  let rest := cs.dropWhile Char.isDigit
  match rest with
  | [] => if ip ≠ [] then Option.some ((digitsVal ip : Rat)) else Option.none
  | '.' :: fp =>
      if (ip ≠ [] ∨ fp ≠ []) ∧ fp.all Char.isDigit then
        Option.some ((digitsVal ip : Rat) + fracVal fp)
      else Option.none
  | _ => Option.none

/-- float(s) on a string, restricted to finite decimal literals (the model
has no textual spelling of NaN or infinity). -/
def parseFloatLit (s : String) : Option Rat :=
  match s.data with
  | '-' :: rest => (parseDecimalLit rest).map (fun q => -q)
  | '+' :: rest => parseDecimalLit rest
  | cs => parseDecimalLit cs

/-- Textual NaN spellings accepted by float(s): optional sign followed by
"nan" in any letter case.  (Infinity spellings, exponents and surrounding
whitespace remain outside the modelled literal domain.) -/
def isNanLiteral (s : String) : Bool :=
  let t :=
    match s.data with
    | '-' :: rest => rest
    | '+' :: rest => rest
    | cs => cs
  (t.map Char.toLower) == ['n', 'a', 'n']

/-- str(value): textual form used by the str cast. -/
def pyStr : Value → String
  | Value.none => "None"
  | Value.nan => "nan"
  | Value.int n => toString n
  | Value.float q => toString q
  | Value.str s => s

/-- field.type(value): the constructor cast attempted at line 68.  A failed
cast is the error logged and re-raised at lines 69-73. -/
def pyCast (t : PyType) (value : Value) : Except PyError Value :=
  match t, value with
  | PyType.int, Value.int n => Except.ok (Value.int n)
  | PyType.int, Value.float q => Except.ok (Value.int (Int.tdiv q.num (q.den : Int)))
  | PyType.int, Value.nan => Except.error (PyError.valueError "cannot convert float NaN to integer")
  | PyType.int, Value.str s =>
      match parseIntLit s with
      | Option.some n => Except.ok (Value.int n)
      | Option.none => Except.error (PyError.valueError "invalid literal for int")
  | PyType.int, Value.none => Except.error (PyError.typeError "int does not accept NoneType")
  | PyType.float, Value.float q => Except.ok (Value.float q)
  | PyType.float, Value.nan => Except.ok Value.nan
  | PyType.float, Value.int n => Except.ok (Value.float (n : Rat))
  | PyType.float, Value.str s =>
      if isNanLiteral s then Except.ok Value.nan
      else
        match parseFloatLit s with
        | Option.some q => Except.ok (Value.float q)
        | Option.none => Except.error (PyError.valueError "could not convert string to float")
  | PyType.float, Value.none => Except.error (PyError.typeError "float does not accept NoneType")
  | PyType.str, v => Except.ok (Value.str (pyStr v))

/-- PyField (lines 109-131) after the metaclass has filled in `field_name`
(the attribute name, line 141) and defaulted `name` (the column name,
lines 142-143).  `default_value` is a Python value where `Value.none`
means "no default" (the source tests `is not None`).  The generator is
recorded by the value it returns; `PyField` defines no `no_select`
attribute, mirroring the source. -/
structure PyField where
  field_name : String
  name : String
  type : PyType
  default_value : Value
  default_value_generator : Option Value
  is_transient : Bool
  valueParser : Option (Value → Value)
  creation_counter : Nat

/-- A field declaration as written in a class body: the constructor
arguments of Field.__init__ (lines 112-128) before the metaclass assigns
the attribute name. -/
structure FieldDecl where
  attribute_type : PyType
  column_name : Option String
  default_value : Value
  default_value_generator : Option Value
  is_transient : Bool
  valueParser : Option (Value → Value)
  creation_counter : Nat

/-- Metaclass name assignment (lines 140-143): field_name becomes the
attribute name; a missing column name defaults to the attribute name. -/
def resolveField (attributeName : String) (d : FieldDecl) : PyField where
  field_name := attributeName
  name := d.column_name.getD attributeName
  type := d.attribute_type
  default_value := d.default_value
  default_value_generator := d.default_value_generator
  is_transient := d.is_transient
  valueParser := d.valueParser
  creation_counter := d.creation_counter

/-- Sort key of line 139: ascending creation_counter. -/
def declLE (p q : String × FieldDecl) : Prop :=
  p.2.creation_counter ≤ q.2.creation_counter

instance : DecidableRel declLE :=
  fun p q => inferInstanceAs (Decidable (p.2.creation_counter ≤ q.2.creation_counter))

instance : IsTotal (String × FieldDecl) declLE :=
  ⟨fun p q => Nat.le_total p.2.creation_counter q.2.creation_counter⟩

instance : IsTrans (String × FieldDecl) declLE :=
  ⟨fun _ _ _ h1 h2 => Nat.le_trans h1 h2⟩

/-- A record type as left behind by DataframeEntityMetaClass.__new__:
`ordered_fields` is the memoized schema (line 146); `class_attrs` is the
PyField-valued part of attribute lookup on the class (the pop at line 137
happens after type creation, so the PyField objects stay class attributes
under their attribute names; non-PyField attributes are filtered out by the
isinstance check at line 81 and therefore need no representation). -/
structure EntityClass where
  ordered_fields : List PyField
  class_attrs : List (String × PyField)

/-- DataframeEntityMetaClass.__new__ (lines 134-147): sort the fields
declared in the type body by creation counter, resolve their names, and
prepend the first base's resolved field list (empty when the base carries
no schema).  `baseAttrs` is the inherited attribute map; own declarations
shadow it. -/
def metaNew (baseFields : List PyField) (baseAttrs : List (String × PyField))
    (decls : List (String × FieldDecl)) : EntityClass where
  ordered_fields :=
    baseFields ++ (List.insertionSort declLE decls).map (fun p => resolveField p.1 p.2)
  class_attrs :=
    (decls.map (fun p => (p.1, resolveField p.1 p.2))) ++ baseAttrs

/-- _get_field_by_field_name (lines 78-81): getattr(cls, field_name, None)
filtered to PyField-valued attributes. -/
def getFieldByFieldName (cls : EntityClass) (fieldName : String) : Option PyField :=
  List.lookup fieldName cls.class_attrs

/-- Which callable _get_field_value_parser returns: the field's own custom
parser, or the closure produced by _get_default_field_value_parser (whose
captured `field` is None when the class-attribute lookup misses,
line 96). -/
inductive ParserChoice where
  | custom (p : Value → Value)
  | defaultOf (field : Option PyField)

/-- String value that is empty while the field's declared type is not
text-like (condition at line 60). -/
def isEmptyNonTextString (t : PyType) (value : Value) : Bool :=
  match value with
  | Value.str s => !(isTextType t) && (s == "")
  | _ => false

/-- convert_function from _get_default_field_value_parser (lines 56-74).
`field` is the closure's captured field; when it is None, every non-null
value reaches an attribute access on it (line 60 for text values, line 63
otherwise) and raises AttributeError. -/
def convertFunction (field : Option PyField) (value : Value) : Except PyError Value :=
  if isNull value then Except.ok Value.none
  else
    match field with
    | Option.none => Except.error (PyError.attributeError "NoneType object has no attribute type")
    | Option.some f =>
      if isEmptyNonTextString f.type value then Except.ok Value.none
      else if !(isInstance value f.type) then
        match f.valueParser with
        | Option.some p => Except.ok (p value)
        | Option.none => pyCast f.type value
      else Except.ok value

/-- _get_field_value_parser (lines 90-96).  The argument is whatever name
__init__ passes at line 25 (the dict key, i.e. the column name). -/
def getFieldValueParser (cls : EntityClass) (fieldName : String) : ParserChoice :=
  match getFieldByFieldName cls fieldName with
  | Option.some field =>
      match field.valueParser with
      | Option.some p => ParserChoice.custom p
      | Option.none => ParserChoice.defaultOf (Option.some field)
  | Option.none => ParserChoice.defaultOf Option.none

/-- Application of the callable chosen by _get_field_value_parser. -/
def applyParser (choice : ParserChoice) (value : Value) : Except PyError Value :=
  match choice with
  | ParserChoice.custom p => Except.ok (p value)
  | ParserChoice.defaultOf field => convertFunction field value

/-- kwargs.get(key, None). -/
def kwGet (kwargs : List (String × Value)) (key : String) : Value :=
  (List.lookup key kwargs).getD Value.none

/-- Default resolution of lines 21-24: a non-None default_value replaces a
null value; if the value is still null and a generator is configured, its
result replaces the value. -/
def applyDefaults (field : PyField) (value0 : Value) : Value :=
  let value1 :=
    if isNull value0 ∧ field.default_value ≠ Value.none then field.default_value else value0
  if isNull value1 then
    match field.default_value_generator with
    | Option.some g => g
    | Option.none => value1
  else value1

/-- Write-or-replace on an association list: the semantics of both
setattr on an instance and dict key assignment (value replaced in place,
position kept). -/
def updateAssoc {β : Type} (key : String) (val : β) :
    List (String × β) → List (String × β)
  | [] => [(key, val)]
  | (k, v) :: rest =>
      if k = key then (key, val) :: rest else (k, v) :: updateAssoc key val rest

/-- The dict comprehension at line 19: one entry per column name, the last
field with a given column name winning.  Iteration order of a Python 2
dict is unspecified; the model iterates in first-insertion order, which
coincides with schema order whenever column names are distinct (the only
situation the theorems below rely on). -/
def dictByName (fields : List PyField) : List (String × PyField) :=
  fields.foldl (fun acc field => updateAssoc field.name field acc) []

/-- Body of the loop in _DataFrameEntity.__init__ (lines 19-26) for one
field: fetch the value by the field's field_name (attribute name, line
20), apply defaults, run the parser selected by the dict key (the column
name, line 25), and store under field_name.  A raised exception aborts
construction. -/
def initField (cls : EntityClass) (kwargs : List (String × Value))
    (store : List (String × Value)) (field : PyField) :
    Except PyError (List (String × Value)) :=
  let value := kwGet kwargs field.field_name
  let value := applyDefaults field value
  match applyParser (getFieldValueParser cls field.name) value with
  | Except.ok v => Except.ok (updateAssoc field.field_name v store)
  | Except.error e => Except.error e

/-- _DataFrameEntity.__init__ (lines 18-26): iterate the by-column-name
dict of schema fields, producing the instance attribute store. -/
def initEntity (cls : EntityClass) (kwargs : List (String × Value)) :
    Except PyError (List (String × Value)) :=
  List.foldlM (fun store entry => initField cls kwargs store entry.2) []
    (dictByName cls.ordered_fields)

/-- columns() (lines 39-41). -/
def columnsOf (cls : EntityClass) : List String :=
  cls.ordered_fields.map (fun f => f.name)

/-- field_values (lines 32-37): ordered mapping column name to
getattr(self, field.field_name), built per schema order with OrderedDict
semantics.  `Option.none` marks an attribute the instance store never set
(where the source would surface the class-level PyField descriptor
object). -/
def fieldValues (cls : EntityClass) (store : List (String × Value)) :
    List (String × Option Value) :=
  cls.ordered_fields.foldl
    (fun acc f => updateAssoc f.name (List.lookup f.field_name store) acc) []

/-- totuple (lines 47-49): getattr(self, column, None) per column.  A
supplied empty column list is falsy in Python and falls back to the
schema columns, like None. -/
def totuple (cls : EntityClass) (store : List (String × Value))
    (columns : Option (List String)) : List Value :=
  let cols :=
    match columns with
    | Option.some (c :: cs) => c :: cs
    | _ => columnsOf cls
  cols.map (fun c => (List.lookup c store).getD Value.none)

/-- Outcome of the __init__ pipeline for a single field, before the store
write. -/
def fieldOutcome (cls : EntityClass) (kwargs : List (String × Value))
    (field : PyField) : Except PyError Value :=
  applyParser (getFieldValueParser cls field.name)
    (applyDefaults field (kwGet kwargs field.field_name))

/-- The underlying table ("dataframe"): for the collection-side claims only
its live column set matters. -/
structure PyDataFrame where
  cols : List String
  deriving DecidableEq, Repr

/-- Collection instance state: the wrapped table plus the remaining entries
of the instance __dict__ (carried over at line 219). -/
structure Collection where
  dataframe : PyDataFrame
  extra_attrs : List (String × Value)
  deriving DecidableEq, Repr

/-- First-order objects a delegated table operation can yield. -/
inductive PyObjBase where
  | df (d : PyDataFrame)
  | coll (c : Collection)
  | val (v : Value)
  deriving DecidableEq, Repr

/-- Objects a delegated attribute access can yield: a first-order object or
a bound method.  Methods of the underlying table return first-order
objects, so one callable layer suffices for the deferral at
lines 221-225. -/
inductive PyObj where
  | base (b : PyObjBase)
  | callable (f : List PyObjBase → Except PyError PyObjBase)

/-- magic_trick (lines 190-227) on a first-order object.  For a table
result, line 192 first reads self.base_class.  CollectionClass never binds
base_class: the factory parameter at line 154 stays a closure variable and
is assigned neither in the class body nor in __init__, and the instance
__dict__ holds only the dataframe and scalar-valued attributes (none of
which shadows the name in this repository).  The access therefore falls
through __getattr__ (lines 172-176) to the underlying table, which as a
plain table exposes no base_class, and line 176 raises AttributeError
with the class name concatenated directly to the attribute name.  Neither
the missing-column warning (lines 193-217) nor the wrap at lines 218-220
is ever reached; had base_class resolved, the comprehension at line 192
would next raise at the likewise nonexistent field.no_select
(Field.__init__, lines 112-128, defines no such attribute).  Non-table
first-order objects are returned unchanged (line 227). -/
def magicTrickBase (_self : Collection) : PyObjBase → Except PyError PyObjBase
  | PyObjBase.df _obj =>
      Except.error
        (PyError.attributeError ("CollectionClass has no attribute" ++ "base_class"))
  | other => Except.ok other

/-- magic_trick on a possibly-callable object: a callable result is
deferred (lines 221-225) into a new callable that re-wraps whatever the
original returns. -/
def magicTrick (self : Collection) : PyObj → Except PyError PyObj
  | PyObj.base b => (magicTrickBase self b).map PyObj.base
  | PyObj.callable f =>
      Except.ok (PyObj.callable (fun args => do
        let r ← f args
        magicTrickBase self r))

/-- CollectionClass.__getattr__ (lines 172-176).  The underlying table is a
black box; `tableAttr` is the attribute it exposes under the requested
name, Option.none when hasattr is false. -/
def collGetattr (self : Collection) (item : String)
    (tableAttr : Option PyObj) : Except PyError PyObj :=
  match tableAttr with
  | Option.some obj => magicTrick self obj
  | Option.none =>
      Except.error (PyError.attributeError ("CollectionClass has no attribute" ++ item))

/-- CollectionClass.__getitem__ (lines 181-182):
return self.magic_track(self.dataframe[item]).  The class defines no
magic_track (the method at line 190 is magic_trick), so the name goes
through __getattr__ and is asked of the underlying table;
`tableMagicTrack` is what the table exposes under "magic_track" (pandas
DataFrames expose nothing).  `itemResult` models self.dataframe[item]. -/
def collGetitem (self : Collection)
    (tableMagicTrack : Option PyObj) (itemResult : PyObjBase) :
    Except PyError PyObjBase := do
  let m ← collGetattr self "magic_track" tableMagicTrack
  match m with
  | PyObj.callable f => f [itemResult]
  | PyObj.base _ => Except.error (PyError.typeError "object is not callable")

/-- C1 example schema, field id: integer, column "id". -/
def c1DeclId : FieldDecl :=
  ⟨PyType.int, Option.some "id", Value.none, Option.none, false, Option.none, 0⟩

/-- C1 example schema, field name: text, column "name", default "". -/
def c1DeclName : FieldDecl :=
  ⟨PyType.str, Option.some "name", Value.str "", Option.none, false, Option.none, 1⟩

/-- C1 example schema, field score: float, column "score", generator
returning 0.0. -/
def c1DeclScore : FieldDecl :=
  ⟨PyType.float, Option.some "score", Value.none, Option.some (Value.float 0), false, Option.none, 2⟩

/-- C1 example record type. -/
def c1Cls : EntityClass :=
  metaNew [] [] [("id", c1DeclId), ("name", c1DeclName), ("score", c1DeclScore)]

/-- C3 schema: a field whose column name "user_id" differs from its
attribute name "uid". -/
def c3Decl : FieldDecl :=
  ⟨PyType.int, Option.some "user_id", Value.none, Option.none, false, Option.none, 0⟩

/-- C3 record type. -/
def c3Cls : EntityClass := metaNew [] [] [("uid", c3Decl)]

/-- C4 collection instance with one extra instance attribute. -/
def c4Coll : Collection := ⟨⟨["id"]⟩, [("tag", Value.int 3)]⟩

/-- C5 collection instance. -/
def c5Coll : Collection := ⟨⟨["score"]⟩, []⟩

/-- C6 counterexample field: custom parser and a default, but a column
name "c" that differs from the attribute name "a". -/
def c6CexDecl : FieldDecl :=
  ⟨PyType.int, Option.some "c", Value.int 5, Option.none, false,
    Option.some (fun _ => Value.int 99), 0⟩

/-- C6 counterexample record type. -/
def c6CexCls : EntityClass := metaNew [] [] [("a", c6CexDecl)]

/-- C6 witness parser: ignores its input and returns 9. -/
def c6WP : Value → Value := fun _ => Value.int 9

/-- C6 witness field declaration: parser and default, column name left to
default to the attribute name. -/
def c6WDecl : FieldDecl :=
  ⟨PyType.int, Option.none, Value.int 5, Option.none, false, Option.some c6WP, 0⟩

/-- C6 witness record type. -/
def c6WCls : EntityClass := metaNew [] [] [("a", c6WDecl)]

/-- C6 witness field after metaclass resolution. -/
def c6WField : PyField := resolveField "a" c6WDecl

/-- C7 counterexample field d: integer with a default of 5. -/
def c7DeclD : FieldDecl :=
  ⟨PyType.int, Option.none, Value.int 5, Option.none, false, Option.none, 0⟩

/-- C7 counterexample field e: integer with a parser distinguishing empty
text from the absence sentinel. -/
def c7DeclE : FieldDecl :=
  ⟨PyType.int, Option.none, Value.none, Option.none, false,
    Option.some (fun v => if v = Value.str "" then Value.int 1 else Value.int 0), 1⟩

/-- C7 counterexample record type. -/
def c7CexCls : EntityClass := metaNew [] [] [("d", c7DeclD), ("e", c7DeclE)]

/-- C7 witness field declaration: non-text type, no parser, no
defaults. -/
def c7WDecl : FieldDecl :=
  ⟨PyType.int, Option.none, Value.none, Option.none, false, Option.none, 0⟩

/-- C7 witness record type. -/
def c7WCls : EntityClass := metaNew [] [] [("x", c7WDecl)]

/-- C7 witness field after metaclass resolution. -/
def c7WField : PyField := resolveField "x" c7WDecl

/-- C8 counterexample field p: custom parser incrementing integers. -/
def c8DeclP : FieldDecl :=
  ⟨PyType.int, Option.none, Value.none, Option.none, false,
    Option.some (fun v => match v with | Value.int n => Value.int (n + 1) | _ => Value.int 0), 0⟩

/-- C8 counterexample field d: integer with default 5. -/
def c8DeclD : FieldDecl :=
  ⟨PyType.int, Option.none, Value.int 5, Option.none, false, Option.none, 1⟩

/-- C8 counterexample field with attribute name "a", column name "b". -/
def c8DeclX : FieldDecl :=
  ⟨PyType.int, Option.some "b", Value.none, Option.none, false, Option.none, 2⟩

/-- C8 counterexample field with attribute name "b", column name "c". -/
def c8DeclY : FieldDecl :=
  ⟨PyType.str, Option.some "c", Value.none, Option.none, false, Option.none, 3⟩

/-- C8 counterexample field f: float with no parser and no defaults; the
textual input "nan" casts to NaN. -/
def c8DeclN : FieldDecl :=
  ⟨PyType.float, Option.none, Value.none, Option.none, false, Option.none, 4⟩

/-- C8 counterexample record type. -/
def c8CexCls : EntityClass :=
  metaNew [] []
    [("p", c8DeclP), ("d", c8DeclD), ("a", c8DeclX), ("b", c8DeclY), ("f", c8DeclN)]

/-- C8 counterexample construction kwargs. -/
def c8CexKw : List (String × Value) :=
  [("p", Value.int 1), ("d", Value.str ""), ("a", Value.int 5), ("f", Value.str "nan")]

/-- C8 counterexample: the store the first construction produces. -/
def c8CexStore0 : List (String × Value) :=
  [("p", Value.int 2), ("d", Value.none), ("a", Value.str "5"), ("b", Value.none),
    ("f", Value.nan)]

/-- C8 counterexample: the store reconstruction produces. -/
def c8CexStore1 : List (String × Value) :=
  [("p", Value.int 3), ("d", Value.int 5), ("a", Value.none), ("b", Value.none),
    ("f", Value.none)]

/-- C8 witness field declaration id. -/
def c8WDeclId : FieldDecl :=
  ⟨PyType.int, Option.none, Value.none, Option.none, false, Option.none, 0⟩

/-- C8 witness field declaration name, with default "". -/
def c8WDeclNm : FieldDecl :=
  ⟨PyType.str, Option.none, Value.str "", Option.none, false, Option.none, 1⟩

/-- C8 witness record type. -/
def c8WCls : EntityClass := metaNew [] [] [("id", c8WDeclId), ("name", c8WDeclNm)]

/-- C8 witness fields after metaclass resolution. -/
def c8WFId : PyField := resolveField "id" c8WDeclId

/-- C8 witness second field after metaclass resolution. -/
def c8WFNm : PyField := resolveField "name" c8WDeclNm

/-- C8 witness store. -/
def c8WStore : List (String × Value) := [("id", Value.int 7), ("name", Value.str "")]

/-- C9 collection instance. -/
def c9Coll : Collection := ⟨⟨["id"]⟩, []⟩

/-- C10 counterexample field: attribute name "a", column name "b", no
parser, no defaults. -/
def c10Decl1 : FieldDecl :=
  ⟨PyType.int, Option.some "b", Value.none, Option.none, false, Option.none, 0⟩

/-- C10 counterexample shadowing field: attribute name "b" (equal to the
first field's column name) with a custom parser. -/
def c10Decl2 : FieldDecl :=
  ⟨PyType.int, Option.some "c", Value.none, Option.none, false,
    Option.some (fun _ => Value.int 42), 1⟩

/-- C10 counterexample record type. -/
def c10CexCls : EntityClass := metaNew [] [] [("a", c10Decl1), ("b", c10Decl2)]

/-- C10 counterexample first field after metaclass resolution. -/
def c10CexF1 : PyField := resolveField "a" c10Decl1

/-- C10 witness field declaration. -/
def c10WDecl : FieldDecl :=
  ⟨PyType.int, Option.none, Value.none, Option.none, false, Option.none, 0⟩

/-- C10 witness record type. -/
def c10WCls : EntityClass := metaNew [] [] [("x", c10WDecl)]

/-- C10 witness field after metaclass resolution. -/
def c10WField : PyField := resolveField "x" c10WDecl

/-- Normal form of __init__ under distinct attribute and column names: the
per-field outcomes listed in schema order.  Proved equal to `initEntity`
in `initEntity_eq_construe`. -/
def construeFields (cls : EntityClass) (kwargs : List (String × Value)) :
    List PyField → Except PyError (List (String × Value))
  | [] => Except.ok []
  | f :: fs => do
      let v ← fieldOutcome cls kwargs f
      let rest ← construeFields cls kwargs fs
      Except.ok ((f.field_name, v) :: rest)

instance {e a : Type} [DecidableEq e] [DecidableEq a] : DecidableEq (Except e a) :=
  fun x y =>
    match x, y with
    | Except.ok u, Except.ok w =>
        if h : u = w then Decidable.isTrue (by rw [h])
        else Decidable.isFalse (fun hc => h (Except.ok.inj hc))
    | Except.error u, Except.error w =>
        if h : u = w then Decidable.isTrue (by rw [h])
        else Decidable.isFalse (fun hc => h (Except.error.inj hc))
    | Except.ok _, Except.error _ => Decidable.isFalse (fun hc => Except.noConfusion hc)
    | Except.error _, Except.ok _ => Decidable.isFalse (fun hc => Except.noConfusion hc)

theorem updateAssoc_fresh {β : Type} (key : String) (val : β) :
    ∀ (acc : List (String × β)), (∀ p ∈ acc, p.1 ≠ key) →
      updateAssoc key val acc = acc ++ [(key, val)] := by
  intro acc
  induction acc with
  | nil => intro _; rfl
  | cons hd tl ih =>
      intro h
      have hne : hd.1 ≠ key := h hd (List.mem_cons_self hd tl)
      simp only [updateAssoc]
      rw [if_neg hne, ih (fun p hp => h p (List.mem_cons_of_mem hd hp))]
      rfl

theorem foldl_dict_fresh (l : List PyField) :
    ∀ (acc : List (String × PyField)),
      (l.map (fun f => f.name)).Nodup →
      (∀ f ∈ l, ∀ p ∈ acc, p.1 ≠ f.name) →
      l.foldl (fun acc field => updateAssoc field.name field acc) acc
        = acc ++ l.map (fun f => (f.name, f)) := by
  induction l with
  | nil => intro acc _ _; simp
  | cons hd tl ih =>
      intro acc hnd hfresh
      simp only [List.foldl_cons]
      rw [updateAssoc_fresh hd.name hd acc (hfresh hd (List.mem_cons_self hd tl))]
      rw [ih (acc ++ [(hd.name, hd)]) (by simpa using hnd.of_cons) ?fresh]
      · simp
      case fresh =>
        intro f hf p hp
        rcases List.mem_append.mp hp with hin | hin
        · exact hfresh f (List.mem_cons_of_mem hd hf) p hin
        · rw [List.mem_singleton.mp hin]
          intro hcontra
          have hc2 : hd.name = f.name := hcontra
          simp only [List.map_cons, List.nodup_cons] at hnd
          exact hnd.1 (by rw [hc2]; exact List.mem_map_of_mem (fun f => f.name) hf)

theorem dictByName_eq (l : List PyField) (h : (l.map (fun f => f.name)).Nodup) :
    dictByName l = l.map (fun f => (f.name, f)) := by
  have := foldl_dict_fresh l [] h (fun f _ p hp => absurd hp (List.not_mem_nil p))
  simpa [dictByName] using this

theorem exceptMap_ok {ε α β : Type} (f : α → β) (v : α) :
    Except.map f (Except.ok (ε := ε) v) = Except.ok (f v) := rfl

theorem exceptMap_error {ε α β : Type} (f : α → β) (e : ε) :
    Except.map f (Except.error (α := α) e) = Except.error e := rfl

theorem exceptBind_ok {ε α β : Type} (v : α) (g : α → Except ε β) :
    (Except.ok v : Except ε α) >>= g = g v := rfl

theorem exceptBind_error {ε α β : Type} (e : ε) (g : α → Except ε β) :
    (Except.error e : Except ε α) >>= g = (Except.error e : Except ε β) := rfl

theorem initField_eq (cls : EntityClass) (kwargs store : List (String × Value))
    (f : PyField) :
    initField cls kwargs store f
      = (fieldOutcome cls kwargs f).map (fun v => updateAssoc f.field_name v store) := by
  unfold initField fieldOutcome
  cases h : applyParser (getFieldValueParser cls f.name)
      (applyDefaults f (kwGet kwargs f.field_name)) <;>
    simp only [h, exceptMap_ok, exceptMap_error]

theorem foldlM_initField (cls : EntityClass) (kwargs : List (String × Value))
    (l : List PyField) :
    ∀ (acc : List (String × Value)),
      (l.map (fun f => f.field_name)).Nodup →
      (∀ f ∈ l, ∀ p ∈ acc, p.1 ≠ f.field_name) →
      List.foldlM (fun store entry => initField cls kwargs store entry.2) acc
          (l.map (fun f => (f.name, f)))
        = (construeFields cls kwargs l).map (fun s => acc ++ s) := by
  induction l with
  | nil =>
      intro acc _ _
      show Except.ok acc = Except.map _ (Except.ok [])
      rw [exceptMap_ok]
      rw [List.append_nil]
  | cons hd tl ih =>
      intro acc hnd hfresh
      simp only [List.map_cons, List.foldlM_cons]
      rw [initField_eq]
      cases hout : fieldOutcome cls kwargs hd with
      | error e =>
          simp only [construeFields, hout, exceptMap_error, exceptBind_error]
      | ok v =>
          simp only [construeFields, hout, exceptMap_ok, exceptBind_ok]
          rw [updateAssoc_fresh hd.field_name v acc
            (hfresh hd (List.mem_cons_self hd tl))]
          have hfresh2 : ∀ f ∈ tl, ∀ p ∈ acc ++ [(hd.field_name, v)],
              p.1 ≠ f.field_name := by
            intro f hf p hp
            rcases List.mem_append.mp hp with hin | hin
            · exact hfresh f (List.mem_cons_of_mem hd hf) p hin
            · rw [List.mem_singleton.mp hin]
              intro hcontra
              have hc2 : hd.field_name = f.field_name := hcontra
              simp only [List.map_cons, List.nodup_cons] at hnd
              exact hnd.1
                (by rw [hc2]; exact List.mem_map_of_mem (fun f => f.field_name) hf)
          rw [ih (acc ++ [(hd.field_name, v)]) (by simpa using hnd.of_cons) hfresh2]
          cases hrest : construeFields cls kwargs tl with
          | error e =>
              simp only [exceptBind_ok, exceptBind_error, exceptMap_error]
          | ok s =>
              simp only [exceptBind_ok, exceptMap_ok]
              simp

theorem initEntity_eq_construe (cls : EntityClass) (kwargs : List (String × Value))
    (hA : (cls.ordered_fields.map (fun f => f.field_name)).Nodup)
    (hC : (cls.ordered_fields.map (fun f => f.name)).Nodup) :
    initEntity cls kwargs = construeFields cls kwargs cls.ordered_fields := by
  unfold initEntity
  rw [dictByName_eq cls.ordered_fields hC]
  rw [foldlM_initField cls kwargs cls.ordered_fields [] hA
    (fun f _ p hp => absurd hp (List.not_mem_nil p))]
  cases construeFields cls kwargs cls.ordered_fields with
  | error e => rfl
  | ok s => rw [exceptMap_ok]; simp

theorem construe_ok_lookup (cls : EntityClass) (kwargs : List (String × Value)) :
    ∀ (l : List PyField) (s : List (String × Value)) (f : PyField),
      (l.map (fun g => g.field_name)).Nodup → f ∈ l →
      construeFields cls kwargs l = Except.ok s →
      ∃ v, fieldOutcome cls kwargs f = Except.ok v
        ∧ List.lookup f.field_name s = Option.some v := by
  intro l
  induction l with
  | nil => intro s f _ hf _; exact absurd hf (List.not_mem_nil f)
  | cons hd tl ih =>
      intro s f hnd hf hok
      cases hout : fieldOutcome cls kwargs hd with
      | error e =>
          rw [construeFields, hout, exceptBind_error] at hok
          exact Except.noConfusion hok
      | ok v =>
          cases hrest : construeFields cls kwargs tl with
          | error e =>
              rw [construeFields, hout, exceptBind_ok, hrest, exceptBind_error] at hok
              exact Except.noConfusion hok
          | ok rest =>
              simp only [construeFields, hout, hrest, exceptBind_ok,
                Except.ok.injEq] at hok
              subst hok
              rcases List.mem_cons.mp hf with rfl | hftl
              · refine ⟨v, hout, ?_⟩
                simp [List.lookup]
              · have hne : hd.field_name ≠ f.field_name := by
                  simp only [List.map_cons, List.nodup_cons] at hnd
                  intro hcontra
                  exact hnd.1
                    (by rw [hcontra]; exact List.mem_map_of_mem (fun g => g.field_name) hftl)
                rcases ih rest f (by simpa using hnd.of_cons) hftl hrest with ⟨w, hw1, hw2⟩
                refine ⟨w, hw1, ?_⟩
                have hbeq1 : (hd.field_name == f.field_name) = false := by simp [hne]
                have hbeq2 : (f.field_name == hd.field_name) = false := by
                  simp [Ne.symm hne]
                simp [List.lookup, hbeq1, hbeq2, hw2]

theorem construe_congr (cls : EntityClass) (kw1 kw2 : List (String × Value)) :
    ∀ (l : List PyField),
      (∀ f ∈ l, fieldOutcome cls kw2 f = fieldOutcome cls kw1 f) →
      construeFields cls kw2 l = construeFields cls kw1 l := by
  intro l
  induction l with
  | nil => intro _; rfl
  | cons hd tl ih =>
      intro h
      simp only [construeFields]
      rw [h hd (List.mem_cons_self hd tl),
        ih (fun f hf => h f (List.mem_cons_of_mem hd hf))]

theorem isNull_none : isNull Value.none = true := rfl

theorem applyDefaults_not_null (f : PyField) (v : Value) (h : isNull v = false) :
    applyDefaults f v = v := by
  simp [applyDefaults, h]

theorem applyDefaults_null_eq (f : PyField) (x : Value) (hx : isNull x = true)
    (hnn : isNull (applyDefaults f Value.none) = false) :
    applyDefaults f x = applyDefaults f Value.none := by
  by_cases hd : f.default_value = Value.none
  · cases hg : f.default_value_generator with
    | some g => simp [applyDefaults, hx, hd, hg, isNull_none]
    | none =>
        exfalso
        rw [show applyDefaults f Value.none = Value.none by
          simp [applyDefaults, hd, hg, isNull_none]] at hnn
        rw [isNull_none] at hnn
        exact absurd hnn (by simp)
  · simp [applyDefaults, hx, hd, isNull_none]

theorem convert_defaults_null_congr (g : Option PyField) (f : PyField) (x : Value)
    (hx : isNull x = true) :
    convertFunction g (applyDefaults f x)
      = convertFunction g (applyDefaults f Value.none) := by
  by_cases hd : f.default_value = Value.none
  · cases hg : f.default_value_generator with
    | some gen => simp [applyDefaults, hx, hd, hg, isNull_none]
    | none =>
        have h1 : applyDefaults f x = x := by simp [applyDefaults, hx, hd, hg]
        have h2 : applyDefaults f Value.none = Value.none := by
          simp [applyDefaults, hd, hg, isNull_none]
        rw [h1, h2]
        simp [convertFunction, hx, isNull_none]
  · simp [applyDefaults, hx, hd, isNull_none]

theorem isInstance_no_empty (t : PyType) (v : Value) (h : isInstance v t = true) :
    isEmptyNonTextString t v = false := by
  cases v <;> cases t <;> simp_all [isInstance, isEmptyNonTextString, isTextType]

theorem pyCast_ok_props (t : PyType) (w v : Value)
    (h : pyCast t w = Except.ok v) :
    v ≠ Value.none ∧ isInstance v t = true := by
  cases t with
  | int =>
      cases w with
      | none => simp [pyCast] at h
      | nan => simp [pyCast] at h
      | int n =>
          simp only [pyCast, Except.ok.injEq] at h
          subst h; simp [isInstance]
      | float q =>
          simp only [pyCast, Except.ok.injEq] at h
          subst h; simp [isInstance]
      | str s =>
          rw [pyCast] at h
          cases hp : parseIntLit s with
          | none => rw [hp] at h; exact Except.noConfusion h
          | some n =>
              rw [hp] at h
              simp only [Except.ok.injEq] at h
              subst h; simp [isInstance]
  | float =>
      cases w with
      | none => simp [pyCast] at h
      | nan =>
          simp only [pyCast, Except.ok.injEq] at h
          subst h; simp [isInstance]
      | int n =>
          simp only [pyCast, Except.ok.injEq] at h
          subst h; simp [isInstance]
      | float q =>
          simp only [pyCast, Except.ok.injEq] at h
          subst h; simp [isInstance]
      | str s =>
          rw [pyCast] at h
          by_cases hn : isNanLiteral s = true
          · rw [if_pos hn] at h
            simp only [Except.ok.injEq] at h
            subst h; simp [isInstance]
          · rw [if_neg hn] at h
            cases hp : parseFloatLit s with
            | none => rw [hp] at h; exact Except.noConfusion h
            | some q =>
                rw [hp] at h
                simp only [Except.ok.injEq] at h
                subst h; simp [isInstance]
  | str =>
      cases w <;>
        (simp only [pyCast, Except.ok.injEq] at h; subst h;
          simp [isInstance])

theorem convertFunction_some (f : PyField) (value : Value) :
    convertFunction (Option.some f) value
      = if isNull value then Except.ok Value.none
        else if isEmptyNonTextString f.type value then Except.ok Value.none
        else if !(isInstance value f.type) then
          match f.valueParser with
          | Option.some p => Except.ok (p value)
          | Option.none => pyCast f.type value
        else Except.ok value := by
  rw [convertFunction]

theorem convert_idem (f : PyField) (hp : f.valueParser = Option.none)
    (raw v : Value)
    (hE : raw = Value.str "" →
      isTextType f.type = true ∨ isNull (applyDefaults f Value.none) = true)
    (hvn : v = Value.none ∨ isNull v = false)
    (h : convertFunction (Option.some f) (applyDefaults f raw) = Except.ok v) :
    convertFunction (Option.some f) (applyDefaults f v) = Except.ok v := by
  by_cases hw : isNull (applyDefaults f raw) = true
  · have hv : v = Value.none := by
      rw [convertFunction, if_pos hw] at h
      cases h; rfl
    subst hv
    by_cases hraw : isNull raw = true
    · have hc := convert_defaults_null_congr (Option.some f) f raw hraw
      rw [← hc]
      exact h
    · have hraw2 : isNull raw = false := by simpa using hraw
      rw [applyDefaults_not_null f raw hraw2, hraw2] at hw
      exact absurd hw (by simp)
  · by_cases he : isEmptyNonTextString f.type (applyDefaults f raw) = true
    · have hv : v = Value.none := by
        rw [convertFunction_some, if_neg hw, if_pos he] at h
        cases h; rfl
      subst hv
      by_cases hraw : isNull raw = true
      · have hc := convert_defaults_null_congr (Option.some f) f raw hraw
        rw [← hc]
        exact h
      · have hraw2 : isNull raw = false := by simpa using hraw
        rw [applyDefaults_not_null f raw hraw2] at he
        have hstr : raw = Value.str "" ∧ isTextType f.type = false := by
          cases raw <;> simp_all [isEmptyNonTextString]
        rcases hE hstr.1 with htl | hnn
        · rw [hstr.2] at htl
          exact absurd htl (by simp)
        · rw [convertFunction_some, if_pos hnn]
    · by_cases hi : isInstance (applyDefaults f raw) f.type = true
      · have hv : v = applyDefaults f raw := by
          rw [convertFunction_some, if_neg hw, if_neg he,
            if_neg (show ¬((!(isInstance (applyDefaults f raw) f.type)) = true) by
              simp [hi])] at h
          cases h; rfl
      
        have hvn : isNull v = false := by rw [hv]; simpa using hw
        rw [applyDefaults_not_null f v hvn, convertFunction_some,
          if_neg (by simp [hvn]),
          if_neg (show ¬(isEmptyNonTextString f.type v = true) by rw [hv]; exact he),
          if_neg (show ¬((!(isInstance v f.type)) = true) by rw [hv]; simp [hi])]
      · have hcast : pyCast f.type (applyDefaults f raw) = Except.ok v := by
          rw [convertFunction_some, if_neg hw, if_neg he,
            if_pos (show (!(isInstance (applyDefaults f raw) f.type)) = true by
              simpa using hi), hp] at h
          exact h
        rcases pyCast_ok_props f.type (applyDefaults f raw) v hcast with ⟨hvne, hv2⟩
        have hv1 : isNull v = false := by
          rcases hvn with hnone | hfalse
          · exact absurd hnone hvne
          · exact hfalse
        rw [applyDefaults_not_null f v hv1, convertFunction_some,
          if_neg (by simp [hv1]),
          if_neg (by simp [isInstance_no_empty f.type v hv2]),
          if_neg (by simp [hv2])]

theorem lookup_map_self (g : PyField → Value) :
    ∀ (l : List PyField) (f : PyField),
      (l.map (fun x => x.name)).Nodup → f ∈ l →
      List.lookup f.name (l.map (fun x => (x.name, g x))) = Option.some (g f) := by
  intro l
  induction l with
  | nil => intro f _ hf; exact absurd hf (List.not_mem_nil f)
  | cons hd tl ih =>
      intro f hnd hf
      rcases List.mem_cons.mp hf with rfl | hftl
      · simp [List.lookup]
      · have hne : hd.name ≠ f.name := by
          simp only [List.map_cons, List.nodup_cons] at hnd
          intro hcontra
          exact hnd.1
            (by rw [hcontra]; exact List.mem_map_of_mem (fun x => x.name) hftl)
        have hbeq1 : (hd.name == f.name) = false := by simp [hne]
        have hbeq2 : (f.name == hd.name) = false := by simp [Ne.symm hne]
        simp only [List.map_cons, List.lookup, hbeq1, hbeq2]
        exact ih f (by simpa using hnd.of_cons) hftl

theorem zip_columns_totuple (cls : EntityClass) (store : List (String × Value)) :
    List.zip (columnsOf cls) (totuple cls store Option.none)
      = cls.ordered_fields.map
          (fun x => (x.name, (List.lookup x.name store).getD Value.none)) := by
  show List.zip (cls.ordered_fields.map (fun x => x.name))
      ((cls.ordered_fields.map (fun x => x.name)).map
        (fun c => (List.lookup c store).getD Value.none)) = _
  rw [List.map_map, List.zip_map']
  rfl

theorem lookup_mem {β : Type} (key : String) (val : β) :
    ∀ (l : List (String × β)), List.lookup key l = Option.some val → (key, val) ∈ l := by
  intro l
  induction l with
  | nil => intro h; exact Option.noConfusion h
  | cons hd tl ih =>
      obtain ⟨k, v⟩ := hd
      intro h
      by_cases hk : k = key
      · subst hk
        simp only [List.lookup, beq_self_eq_true] at h
        simp only [Option.some.injEq] at h
        subst h
        exact List.mem_cons_self (k, v) tl
      · have hb1 : (key == k) = false := by simp [Ne.symm hk]
        have hb2 : (k == key) = false := by simp [hk]
        simp only [List.lookup, hb1, hb2] at h
        exact List.mem_cons_of_mem (k, v) (ih h)

/-- C1: for the schema id: integer (column "id"), name: text (column
"name", default ""), score: float (column "score", generated default
0.0), constructing from the keyword mapping id ↦ "7", name ↦ None,
score ↦ None stores id = 7 (cast from text), name = "" (the default) and
score = 0.0 (the generated default), and field_values is the ordered
mapping id ↦ 7, name ↦ "", score ↦ 0.0 in column order. -/
theorem c1_example_construction :
    initEntity c1Cls [("id", Value.str "7"), ("name", Value.none), ("score", Value.none)]
      = Except.ok [("id", Value.int 7), ("name", Value.str ""), ("score", Value.float 0)]
    ∧ fieldValues c1Cls
        [("id", Value.int 7), ("name", Value.str ""), ("score", Value.float 0)]
      = [("id", Option.some (Value.int 7)), ("name", Option.some (Value.str "")),
          ("score", Option.some (Value.float 0))] := by
  constructor
  · decide
  · decide

/-- C3: the claim says construction looks a field up by its column_name in
the keyword mapping; the code reads kwargs.get(field.field_name, None)
(line 20), i.e. by attribute name.  For a field with attribute name "uid"
and column name "user_id", a kwarg keyed by the column name is ignored
(the field ends up null), and a kwarg keyed by the attribute name makes
construction raise AttributeError, because line 25 then resolves the
parser by looking the column name up as a class attribute and finds
nothing (line 96 hands field = None into the default-parser closure). -/
theorem c3_kwargs_keyed_by_attribute_name :
    initEntity c3Cls [("user_id", Value.int 5)] = Except.ok [("uid", Value.none)]
    ∧ initEntity c3Cls [("uid", Value.int 5)]
        = Except.error (PyError.attributeError "NoneType object has no attribute type") := by
  constructor
  · decide
  · decide

/-- C4: the claim says a delegated table-returning access yields a
same-class Collection wrapping the table and carrying over the instance
attributes.  The code instead raises AttributeError on every such access:
CollectionClass never binds base_class, so evaluating self.base_class at
line 192 falls through __getattr__ to the underlying table and line 176
raises, with the class name concatenated directly to the attribute name;
the wrap at lines 218-220 is unreachable. -/
theorem c4_magic_trick_attribute_error :
    collGetattr c4Coll "sort" (Option.some (PyObj.base (PyObjBase.df ⟨["id"]⟩)))
      = Except.error
          (PyError.attributeError "CollectionClass has no attributebase_class") := by
  rfl

/-- C5: the claim says a wrapped table missing required non-transient
columns is only logged as a warning and execution continues.  With a
delegated table result missing the intended schema column "score",
magic_trick raises AttributeError before the missing-column check or the
warning could ever run: self.base_class at line 192 is unresolvable
(CollectionClass never binds it), so the schema itself is out of reach. -/
theorem c5_missing_column_raises_attribute_error :
    magicTrickBase c5Coll (PyObjBase.df ⟨["other"]⟩)
      = Except.error
          (PyError.attributeError "CollectionClass has no attributebase_class") := by
  decide

/-- C9: the claim says subscript access delegates to the table and
re-wraps like attribute access.  __getitem__ (line 182) instead invokes
self.magic_track, a name the class does not define (the method is
magic_trick), so the lookup goes through __getattr__ to the underlying
table, which exposes no such attribute, and AttributeError is raised for
every subscript (note the missing space in the message, exactly as built
at line 176). -/
theorem c9_getitem_calls_missing_magic_track :
    collGetitem c9Coll Option.none (PyObjBase.df ⟨["id"]⟩)
      = Except.error (PyError.attributeError "CollectionClass has no attributemagic_track") := by
  decide

/-- C6 counterexample: a field with both a custom parser and a default but
a column name "c" different from its attribute name "a".  On null input
the default is resolved, but construction then raises AttributeError
before the parser is ever invoked, because the parser lookup by column
name (line 25) finds no class attribute "c" and the default-parser
closure receives field = None.  Nothing is stored, refuting the claim
that the parser result is stored for every such field. -/
theorem c6_counterexample :
    c6CexCls.ordered_fields = [resolveField "a" c6CexDecl]
    ∧ initEntity c6CexCls []
        = Except.error (PyError.attributeError "NoneType object has no attribute type") := by
  constructor
  · rfl
  · decide

/-- C7 counterexample: two non-text (integer) fields, d with default 5 and
e with a custom parser distinguishing empty text from None.  Empty-text
input is not null (pd.isnull("") is false), so defaults are skipped and d
stores None, while null input stores the default 5; the parser field
stores 1 for "" and 0 for None.  Both refute the claim that empty-text
input coerces like null input for every non-text field. -/
theorem c7_counterexample :
    initEntity c7CexCls [("d", Value.str ""), ("e", Value.str "")]
      = Except.ok [("d", Value.none), ("e", Value.int 1)]
    ∧ initEntity c7CexCls []
      = Except.ok [("d", Value.int 5), ("e", Value.int 0)] := by
  constructor
  · decide
  · decide

/-- C8 counterexample: a schema with a parser field p (increments ints), a
defaulted field d, a mismatched-name pair (attribute "a" / column "b" and
attribute "b" / column "c"), and a float field f fed the text "nan".
Construction succeeds, but reconstructing from the zipped (column,
to_tuple value) pairs changes p from 2 to 3 (parser re-applied), d from
None to 5 (default applied to the tuple's None), "a" from "5" to None
(mismatched names), and f from NaN to None (a stored NaN is null on
re-entry), so field_values differs and the round-trip claim fails. -/
theorem c8_counterexample :
    initEntity c8CexCls c8CexKw = Except.ok c8CexStore0
    ∧ totuple c8CexCls c8CexStore0 Option.none
        = [Value.int 2, Value.none, Value.none, Value.none, Value.nan]
    ∧ initEntity c8CexCls
        (List.zip (columnsOf c8CexCls) (totuple c8CexCls c8CexStore0 Option.none))
        = Except.ok c8CexStore1
    ∧ fieldValues c8CexCls c8CexStore1 ≠ fieldValues c8CexCls c8CexStore0 := by
  refine ⟨by decide, by decide, by decide, by decide⟩

/-- C10 counterexample: field "a" has no parser and no defaults, yet null
input stores 42 rather than None, because its column name "b" equals the
attribute name of the second field, whose custom parser is picked up by
the class-attribute lookup at lines 91-94 and applied to the null
value. -/
theorem c10_counterexample :
    c10CexF1.valueParser = Option.none
    ∧ c10CexF1.default_value = Value.none
    ∧ c10CexF1.default_value_generator = Option.none
    ∧ initEntity c10CexCls [] = Except.ok [("a", Value.int 42), ("b", Value.none)] := by
  refine ⟨rfl, rfl, rfl, by decide⟩

/-- C2: for every record type built by the metaclass over an ancestor
schema, the ordered field list begins with exactly the ancestor's field
list (same descriptors, same order, same identity), followed by the
type's own declared fields sorted by creation counter ascending (stated
as: a permutation of the declared fields that is sorted by the
counter). -/
theorem c2_inherited_schema_order (pf : List PyField) (pa : List (String × PyField))
    (ds : List (String × FieldDecl)) :
    ((metaNew pf pa ds).ordered_fields.take pf.length = pf)
    ∧ ((metaNew pf pa ds).ordered_fields.drop pf.length).Perm
        (ds.map (fun p => resolveField p.1 p.2))
    ∧ List.Sorted (fun f g : PyField => f.creation_counter ≤ g.creation_counter)
        ((metaNew pf pa ds).ordered_fields.drop pf.length) := by
  have hof : (metaNew pf pa ds).ordered_fields
      = pf ++ (List.insertionSort declLE ds).map (fun p => resolveField p.1 p.2) := rfl
  refine ⟨?_, ?_, ?_⟩
  · rw [hof, List.take_left]
  · rw [hof, List.drop_left]
    exact (List.perm_insertionSort declLE ds).map (fun p => resolveField p.1 p.2)
  · rw [hof, List.drop_left]
    have hs := List.sorted_insertionSort declLE ds
    show List.Pairwise _ _
    rw [List.pairwise_map]
    exact hs

/-- C6 (amended): for every field with a custom parser and a default that
actually resolves null to a non-null value, provided the field's column
name resolves (as a class-attribute lookup, line 92) to the field itself
— in particular whenever column name and attribute name coincide — and
the schema has distinct attribute and column names, default resolution
happens first and the parser is invoked with the defaulted value; the
parser's result is what gets stored. -/
theorem c6_defaults_resolved_first (cls : EntityClass) (f : PyField) (p : Value → Value)
    (kwargs store : List (String × Value))
    (hA : (cls.ordered_fields.map (fun g => g.field_name)).Nodup)
    (hC : (cls.ordered_fields.map (fun g => g.name)).Nodup)
    (hm : f ∈ cls.ordered_fields)
    (hp : f.valueParser = Option.some p)
    (hres : getFieldByFieldName cls f.name = Option.some f)
    (hnull : isNull (kwGet kwargs f.field_name) = true)
    (hdef : isNull (applyDefaults f Value.none) = false)
    (hok : initEntity cls kwargs = Except.ok store) :
    List.lookup f.field_name store = Option.some (p (applyDefaults f Value.none)) := by
  rw [initEntity_eq_construe cls kwargs hA hC] at hok
  rcases construe_ok_lookup cls kwargs cls.ordered_fields store f hA hm hok
    with ⟨v, hv1, hv2⟩
  have hchoice : getFieldValueParser cls f.name = ParserChoice.custom p := by
    simp [getFieldValueParser, hres, hp]
  have hout : fieldOutcome cls kwargs f
      = Except.ok (p (applyDefaults f Value.none)) := by
    unfold fieldOutcome
    rw [hchoice, applyDefaults_null_eq f (kwGet kwargs f.field_name) hnull hdef]
    rfl
  rw [hout] at hv1
  cases hv1
  exact hv2

/-- C6 witness: the amended theorem applied to a concrete one-field schema
(attribute and column name "a", default 5, parser returning 9): on null
input the store holds the parser result. -/
theorem c6_defaults_resolved_first_witness :
    List.lookup "a" [("a", Value.int 9)]
      = Option.some (c6WP (applyDefaults c6WField Value.none)) :=
  c6_defaults_resolved_first c6WCls c6WField c6WP [] [("a", Value.int 9)]
    (by decide) (by decide)
    (by show c6WField ∈ [c6WField]; exact List.mem_singleton.mpr rfl)
    rfl rfl (by decide) (by decide) (by decide)

/-- C7 (amended): for every field of non-text type with no custom parser,
no default_value and no default_value_generator, whose column name
resolves to the field itself, an empty-text input stores the same result
as a null input, namely the absence value None. -/
theorem c7_empty_text_like_null (cls : EntityClass) (f : PyField)
    (kw1 kw2 s1 s2 : List (String × Value))
    (hA : (cls.ordered_fields.map (fun g => g.field_name)).Nodup)
    (hC : (cls.ordered_fields.map (fun g => g.name)).Nodup)
    (hm : f ∈ cls.ordered_fields)
    (ht : isTextType f.type = false)
    (hp : f.valueParser = Option.none)
    (hd : f.default_value = Value.none)
    (hg : f.default_value_generator = Option.none)
    (hres : getFieldByFieldName cls f.name = Option.some f)
    (h1 : kwGet kw1 f.field_name = Value.str "")
    (h2 : isNull (kwGet kw2 f.field_name) = true)
    (ho1 : initEntity cls kw1 = Except.ok s1)
    (ho2 : initEntity cls kw2 = Except.ok s2) :
    List.lookup f.field_name s1 = Option.some Value.none
    ∧ List.lookup f.field_name s2 = Option.some Value.none := by
  rw [initEntity_eq_construe cls kw1 hA hC] at ho1
  rw [initEntity_eq_construe cls kw2 hA hC] at ho2
  rcases construe_ok_lookup cls kw1 cls.ordered_fields s1 f hA hm ho1
    with ⟨v1, hv11, hv12⟩
  rcases construe_ok_lookup cls kw2 cls.ordered_fields s2 f hA hm ho2
    with ⟨v2, hv21, hv22⟩
  have hchoice : getFieldValueParser cls f.name
      = ParserChoice.defaultOf (Option.some f) := by
    simp [getFieldValueParser, hres, hp]
  constructor
  · have hout : fieldOutcome cls kw1 f = Except.ok Value.none := by
      unfold fieldOutcome
      rw [hchoice]
      show convertFunction (Option.some f)
        (applyDefaults f (kwGet kw1 f.field_name)) = _
      rw [h1, applyDefaults_not_null f (Value.str "") rfl, convertFunction_some,
        if_neg (show ¬(isNull (Value.str "") = true) by decide),
        if_pos (show isEmptyNonTextString f.type (Value.str "") = true by
          simp [isEmptyNonTextString, ht])]
    rw [hout] at hv11
    cases hv11
    exact hv12
  · have hout : fieldOutcome cls kw2 f = Except.ok Value.none := by
      unfold fieldOutcome
      rw [hchoice]
      show convertFunction (Option.some f)
        (applyDefaults f (kwGet kw2 f.field_name)) = _
      have hnd : applyDefaults f (kwGet kw2 f.field_name)
          = kwGet kw2 f.field_name := by
        simp [applyDefaults, hd, hg]
      rw [hnd, convertFunction, if_pos h2]
    rw [hout] at hv21
    cases hv21
    exact hv22

/-- C7 witness: the amended theorem applied to a one-field integer schema,
constructing once from empty text and once from a missing key: both store
None. -/
theorem c7_empty_text_like_null_witness :
    List.lookup "x" [("x", Value.none)] = Option.some Value.none
    ∧ List.lookup "x" [("x", Value.none)] = Option.some Value.none :=
  c7_empty_text_like_null c7WCls c7WField [("x", Value.str "")] []
    [("x", Value.none)] [("x", Value.none)]
    (by decide) (by decide)
    (by show c7WField ∈ [c7WField]; exact List.mem_singleton.mpr rfl)
    rfl rfl rfl rfl rfl rfl (by decide) (by decide) (by decide)

/-- C10 (amended): for every field with no custom parser, no default_value
and no default_value_generator, whose column name does not resolve (as a
class-attribute lookup) to a field carrying a custom parser, every null
input — the absence sentinel or NaN — is stored as exactly None. -/
theorem c10_null_normalized_to_none (cls : EntityClass) (f : PyField)
    (kwargs store : List (String × Value))
    (hA : (cls.ordered_fields.map (fun g => g.field_name)).Nodup)
    (hC : (cls.ordered_fields.map (fun g => g.name)).Nodup)
    (hm : f ∈ cls.ordered_fields)
    (hp : f.valueParser = Option.none)
    (hd : f.default_value = Value.none)
    (hg : f.default_value_generator = Option.none)
    (hres : ∀ g, getFieldByFieldName cls f.name = Option.some g →
      g.valueParser = Option.none)
    (hnull : isNull (kwGet kwargs f.field_name) = true)
    (hok : initEntity cls kwargs = Except.ok store) :
    List.lookup f.field_name store = Option.some Value.none := by
  rw [initEntity_eq_construe cls kwargs hA hC] at hok
  rcases construe_ok_lookup cls kwargs cls.ordered_fields store f hA hm hok
    with ⟨v, hv1, hv2⟩
  have hnd : applyDefaults f (kwGet kwargs f.field_name)
      = kwGet kwargs f.field_name := by
    simp [applyDefaults, hd, hg]
  have hout : fieldOutcome cls kwargs f = Except.ok Value.none := by
    unfold fieldOutcome
    rw [hnd]
    cases hlook : getFieldByFieldName cls f.name with
    | none =>
        simp only [getFieldValueParser, hlook]
        show convertFunction Option.none (kwGet kwargs f.field_name) = _
        rw [convertFunction, if_pos hnull]
    | some g =>
        have hgp := hres g hlook
        simp only [getFieldValueParser, hlook, hgp]
        show convertFunction (Option.some g) (kwGet kwargs f.field_name) = _
        rw [convertFunction, if_pos hnull]
  rw [hout] at hv1
  cases hv1
  exact hv2

/-- C10 witness: the amended theorem applied to a one-field integer schema
with a NaN input: the stored value is exactly None. -/
theorem c10_null_normalized_to_none_witness :
    List.lookup "x" [("x", Value.none)] = Option.some Value.none :=
  c10_null_normalized_to_none c10WCls c10WField [("x", Value.nan)] [("x", Value.none)]
    (by decide) (by decide)
    (by show c10WField ∈ [c10WField]; exact List.mem_singleton.mpr rfl)
    rfl rfl rfl (fun g hg => by cases hg; rfl) (by decide) (by decide)

/-- C8 (amended): for every record type whose fields have distinct,
coinciding attribute and column names that resolve to the fields
themselves and carry no custom parser, and for every construction in
which no non-text field with an effective default received a non-null
empty-text input and no stored value is NaN (a stored NaN is itself null
on re-entry and collapses to None), reconstructing from the zipped
(column, to_tuple value) pairs reproduces the attribute store exactly —
hence identical field_values. -/
theorem c8_roundtrip (cls : EntityClass) (kwargs store : List (String × Value))
    (hA : (cls.ordered_fields.map (fun g => g.field_name)).Nodup)
    (hC : (cls.ordered_fields.map (fun g => g.name)).Nodup)
    (hMatch : ∀ f ∈ cls.ordered_fields, f.name = f.field_name)
    (hRes : ∀ f ∈ cls.ordered_fields,
      getFieldByFieldName cls f.field_name = Option.some f)
    (hNoParser : ∀ f ∈ cls.ordered_fields, f.valueParser = Option.none)
    (hEmpty : ∀ f ∈ cls.ordered_fields, kwGet kwargs f.field_name = Value.str "" →
      isTextType f.type = true ∨ isNull (applyDefaults f Value.none) = true)
    (hNan : ∀ p ∈ store, p.2 = Value.none ∨ isNull p.2 = false)
    (hok : initEntity cls kwargs = Except.ok store) :
    initEntity cls (List.zip (columnsOf cls) (totuple cls store Option.none))
      = Except.ok store := by
  have hcon : construeFields cls kwargs cls.ordered_fields = Except.ok store := by
    rw [← initEntity_eq_construe cls kwargs hA hC]
    exact hok
  rw [initEntity_eq_construe cls _ hA hC]
  have hout2 : ∀ f ∈ cls.ordered_fields,
      fieldOutcome cls (List.zip (columnsOf cls) (totuple cls store Option.none)) f
        = fieldOutcome cls kwargs f := by
    intro f hf
    rcases construe_ok_lookup cls kwargs cls.ordered_fields store f hA hf hcon
      with ⟨v, hv1, hv2⟩
    have hmatch := hMatch f hf
    have hk2 : kwGet (List.zip (columnsOf cls) (totuple cls store Option.none))
        f.field_name = v := by
      unfold kwGet
      rw [zip_columns_totuple, ← hmatch,
        lookup_map_self (fun x => (List.lookup x.name store).getD Value.none)
          cls.ordered_fields f hC hf]
      simp [hmatch, hv2]
    have hchoice : getFieldValueParser cls f.name
        = ParserChoice.defaultOf (Option.some f) := by
      simp [getFieldValueParser, hmatch, hRes f hf, hNoParser f hf]
    have hconv : convertFunction (Option.some f)
        (applyDefaults f (kwGet kwargs f.field_name)) = Except.ok v := by
      have h0 := hv1
      unfold fieldOutcome at h0
      rw [hchoice] at h0
      exact h0
    unfold fieldOutcome
    rw [hk2, hchoice]
    have hvn : v = Value.none ∨ isNull v = false :=
      hNan (f.field_name, v) (lookup_mem f.field_name v store hv2)
    show convertFunction (Option.some f) (applyDefaults f v)
      = convertFunction (Option.some f) (applyDefaults f (kwGet kwargs f.field_name))
    rw [hconv, convert_idem f (hNoParser f hf) (kwGet kwargs f.field_name) v
      (hEmpty f hf) hvn hconv]
  rw [construe_congr cls kwargs _ cls.ordered_fields hout2]
  exact hcon

/-- C8 witness: the round-trip theorem applied to a two-field schema (id:
integer, name: text with default ""), constructed from id ↦ "7": the
reconstruction from zipped columns and tuple returns the same store. -/
theorem c8_roundtrip_witness :
    initEntity c8WCls (List.zip (columnsOf c8WCls) (totuple c8WCls c8WStore Option.none))
      = Except.ok c8WStore := by
  have hlist : c8WCls.ordered_fields = [c8WFId, c8WFNm] := rfl
  refine c8_roundtrip c8WCls [("id", Value.str "7")] c8WStore
    (by decide) (by decide) ?_ ?_ ?_ ?_ ?_ (by decide)
  · intro f hf
    rw [hlist] at hf
    rcases List.mem_cons.mp hf with rfl | hf2
    · rfl
    · rcases List.mem_singleton.mp hf2 with rfl
      rfl
  · intro f hf
    rw [hlist] at hf
    rcases List.mem_cons.mp hf with rfl | hf2
    · rfl
    · rcases List.mem_singleton.mp hf2 with rfl
      rfl
  · intro f hf
    rw [hlist] at hf
    rcases List.mem_cons.mp hf with rfl | hf2
    · rfl
    · rcases List.mem_singleton.mp hf2 with rfl
      rfl
  · intro f hf h
    rw [hlist] at hf
    rcases List.mem_cons.mp hf with rfl | hf2
    · exact absurd h (by decide)
    · rcases List.mem_singleton.mp hf2 with rfl
      exact absurd h (by decide)
  · intro p hp
    rcases List.mem_cons.mp hp with rfl | hp2
    · right; rfl
    · rcases List.mem_singleton.mp hp2 with rfl
      right; rfl
